import Mathlib

/-!
Verification of the user-CRUD API of `server/index.ts` (tRPC demo server).

The server keeps an in-memory array `users` of records `{id, name, email}`
and exposes four procedures: `getUsers`, `getUserById`, `createUser`,
`deleteUser`.  We embed the store as a `List User` and each procedure as a
pure function from the store (and the procedure's input) to its result,
with mutations additionally returning the store that the global array holds
after the call.  Failures (`throw new TRPCError`) become `Except.error` with
the thrown code; input-validation failures (the `.input(...)` zod schemas,
which tRPC runs before the handler body) become `Except.error .BAD_REQUEST`,
which the spec calls `ValidationFailed`.
-/

/-- A user record as held in the server's `users` array: `{ id, name, email }`. -/
structure User where
  id : String
  name : String
  email : String
  deriving DecidableEq, Repr

/-- Error codes this server's procedures can raise: `BAD_REQUEST` when the
declared zod input schema rejects the input (tRPC raises it before the
handler runs; the spec calls it `ValidationFailed`), `NOT_FOUND` and
`CONFLICT` thrown explicitly by the handlers (the spec's `NotFound` and
`Conflict`). -/
inductive ErrCode where
  | BAD_REQUEST
  | NOT_FOUND
  | CONFLICT
  deriving DecidableEq, Repr

deriving instance DecidableEq for Except

/-- Modelled from the spec: the email syntax check is `z.string().email(...)`,
performed by the zod validation subsystem, whose code is not part of this
repository ("propagated from the validation subsystem, not hand-checked").
The spec requires a "string conforming to a standard email address grammar";
we model that grammar as: exactly one `@`, a non-empty local part, a
non-empty domain that contains a dot but neither starts nor ends with one,
and no space anywhere. -/
def emailValid (s : String) : Bool :=
  match s.data.splitOn '@' with
  | [lp, dp] =>
      !lp.isEmpty && !dp.isEmpty && dp.contains '.' &&
      dp.head? != some '.' && dp.getLast? != some '.' && !s.data.contains ' '
  | _ => false

/-- Input of `createUser`: the zod object schema
`{ name: z.string().min(2), email: z.string().email() }`. -/
structure CreateInput where
  name : String
  email : String
  deriving DecidableEq, Repr

/-- The `createUser` input schema accepts the input: name at least 2
characters and syntactically valid email. -/
def createUserInputOk (input : CreateInput) : Bool :=
  decide (2 ≤ input.name.length) && emailValid input.email

/-- The seed data of the store (`const users = [...]` in server/index.ts). -/
def seedUsers : List User :=
  [{ id := "1", name := "Alice", email := "alice@example.com" },
   { id := "2", name := "Bob", email := "bob@example.com" },
   { id := "3", name := "Charlie", email := "charlie@example.com" }]

/-- Procedure `getUsers`: returns the whole store, unchanged. -/
def getUsers (users : List User) : List User :=
  users

/-- Procedure `getUserById`.  Input schema `z.string().min(1)` (rejected
input yields `BAD_REQUEST` before the handler runs); the handler does
`users.find(u => u.id === input)` and throws `NOT_FOUND` when absent. -/
def getUserById (users : List User) (input : String) : Except ErrCode User :=
  if input.length < 1 then .error .BAD_REQUEST
  else
    match users.find? (fun u => u.id == input) with
    | some u => .ok u
    | none => .error .NOT_FOUND

/-- Procedure `createUser`.  Zod validates the input object first
(`BAD_REQUEST` on failure, store untouched); the handler then does
`users.find(u => u.email === input.email)` and throws `CONFLICT` if a
record with that email exists, else builds
`{ id: String(users.length + 1), name, email }`, pushes it and returns it.
The second component is the content of the `users` array after the call. -/
def createUser (users : List User) (input : CreateInput) :
    Except ErrCode User × List User :=
  if !createUserInputOk input then (.error .BAD_REQUEST, users)
  else
    match users.find? (fun u => u.email == input.email) with
    | some _ => (.error .CONFLICT, users)
    | none =>
      let newUser : User :=
        { id := toString (users.length + 1), name := input.name, email := input.email }
      (.ok newUser, users ++ [newUser])

/-- Procedure `deleteUser`.  Input schema `z.string().min(1)`; the handler
does `users.findIndex(u => u.id === input)`, throws `NOT_FOUND` at index
`-1`, else returns `users[userIndex]` and removes it with
`users.splice(userIndex, 1)`.  Removing the element at the index of the
first match is `List.eraseP`, and the element at that index is
`List.find?`'s result. -/
def deleteUser (users : List User) (input : String) :
    Except ErrCode User × List User :=
  if input.length < 1 then (.error .BAD_REQUEST, users)
  else
    match users.find? (fun u => u.id == input) with
    | none => (.error .NOT_FOUND, users)
    | some d => (.ok d, users.eraseP (fun u => u.id == input))

/-- The `errorCodeMap` lookup table of `mapErrorCode` (server/index.ts):
tRPC error codes to application-specific display codes, with an
`UNKNOWN_ERROR` fallback for every unmapped code. -/
def mapErrorCode (code : String) : String :=
  if code = "BAD_REQUEST" then "INVALID_INPUT"
  else if code = "UNAUTHORIZED" then "AUTH_REQUIRED"
  else if code = "FORBIDDEN" then "ACCESS_DENIED"
  else if code = "NOT_FOUND" then "RESOURCE_NOT_FOUND"
  else if code = "METHOD_NOT_SUPPORTED" then "INVALID_METHOD"
  else if code = "TIMEOUT" then "REQUEST_TIMEOUT"
  else if code = "CONFLICT" then "RESOURCE_CONFLICT"
  else if code = "PRECONDITION_FAILED" then "PRECONDITION_FAILED"
  else if code = "PAYLOAD_TOO_LARGE" then "PAYLOAD_TOO_LARGE"
  else if code = "UNPROCESSABLE_CONTENT" then "VALIDATION_FAILED"
  else if code = "TOO_MANY_REQUESTS" then "RATE_LIMIT_EXCEEDED"
  else if code = "CLIENT_CLOSED_REQUEST" then "CLIENT_DISCONNECTED"
  else if code = "INTERNAL_SERVER_ERROR" then "SERVER_ERROR"
  else "UNKNOWN_ERROR"

/-- The keys of the `errorCodeMap` table, in source order. -/
def errorCodeMapKeys : List String :=
  ["BAD_REQUEST", "UNAUTHORIZED", "FORBIDDEN", "NOT_FOUND",
   "METHOD_NOT_SUPPORTED", "TIMEOUT", "CONFLICT", "PRECONDITION_FAILED",
   "PAYLOAD_TOO_LARGE", "UNPROCESSABLE_CONTENT", "TOO_MANY_REQUESTS",
   "CLIENT_CLOSED_REQUEST", "INTERNAL_SERVER_ERROR"]

/-- Store states reachable by the server: the seed array, mutated by any
sequence of procedure calls.  `getUsers` and `getUserById` never write the
array (their embeddings return no store), so only the two mutations appear
as steps. -/
inductive Reachable : List User → Prop where
  | seed : Reachable seedUsers
  | create (s : List User) (input : CreateInput) :
      Reachable s → Reachable (createUser s input).2
  | delete (s : List User) (input : String) :
      Reachable s → Reachable (deleteUser s input).2

/-!  Helper lemmas. -/

/-- Pushing digits onto the accumulator never shortens `Nat.toDigitsCore`'s
output. -/
theorem toDigitsCore_len_le (b : Nat) : ∀ (f n : Nat) (acc : List Char),
    acc.length ≤ (Nat.toDigitsCore b f n acc).length := by
  intro f
  induction f with
  | zero => intro n acc; rw [Nat.toDigitsCore]
  | succ f ih =>
    intro n acc
    rw [Nat.toDigitsCore]
    by_cases h : n / b = 0
    · simp [h]
    · simp only [if_neg h]
      have := ih (n / b) ((n % b).digitChar :: acc)
      simp at this
      omega

/-- The decimal rendering of a natural number is never the empty string. -/
theorem repr_len (n : Nat) : 1 ≤ (Nat.repr n).length := by
  have key : ∀ acc : List Char,
      acc.length + 1 ≤ (Nat.toDigitsCore 10 (n + 1) n acc).length := by
    intro acc
    rw [Nat.toDigitsCore]
    by_cases h : n / 10 = 0
    · simp [h]
    · simp only [if_neg h]
      have := toDigitsCore_len_le 10 n (n / 10) ((n % 10).digitChar :: acc)
      simp at this
      omega
  have h := key []
  simpa [Nat.repr, Nat.toDigits, List.asString, String.length] using h

/-- Specialisation of `repr_len` to `toString`, which on `Nat` is `Nat.repr`. -/
theorem toString_len (n : Nat) : 1 ≤ (toString n).length :=
  repr_len n

/-- Behaviour of `createUser` when zod rejects the input: `BAD_REQUEST`,
store untouched. -/
theorem createUser_invalid (users : List User) (input : CreateInput)
    (hv : createUserInputOk input = false) :
    createUser users input = (.error .BAD_REQUEST, users) := by
  simp [createUser, hv]

/-- Behaviour of `createUser` when the input is valid but the email is
taken: `CONFLICT`, store untouched. -/
theorem createUser_conflict (users : List User) (input : CreateInput)
    (hv : createUserInputOk input = true)
    (he : ∃ u ∈ users, u.email = input.email) :
    createUser users input = (.error .CONFLICT, users) := by
  obtain ⟨u, hu, heq⟩ := he
  have hsome : (users.find? (fun v => v.email == input.email)).isSome :=
    List.find?_isSome.mpr ⟨u, hu, by simp [heq]⟩
  obtain ⟨d, hd⟩ := Option.isSome_iff_exists.mp hsome
  simp [createUser, hv, hd]

/-- Behaviour of `createUser` when the input is valid and the email is
free: the record `{id: String(users.length + 1), name, email}` is appended
and returned. -/
theorem createUser_ok (users : List User) (input : CreateInput)
    (hv : createUserInputOk input = true)
    (he : ∀ u ∈ users, u.email ≠ input.email) :
    createUser users input =
      (.ok { id := toString (users.length + 1), name := input.name,
             email := input.email },
       users ++ [{ id := toString (users.length + 1), name := input.name,
                   email := input.email }]) := by
  have hfind : users.find? (fun v => v.email == input.email) = none := by
    rw [List.find?_eq_none]
    intro u hu
    simpa using he u hu
  simp [createUser, hv, hfind]

/-- The store left by `createUser` is either the old store or the old store
with the freshly assigned record appended. -/
theorem createUser_store_cases (users : List User) (input : CreateInput) :
    (createUser users input).2 = users ∨
    (createUser users input).2 =
      users ++ [{ id := toString (users.length + 1), name := input.name,
                  email := input.email }] := by
  by_cases hv : createUserInputOk input = true
  · by_cases he : ∀ u ∈ users, u.email ≠ input.email
    · right; rw [createUser_ok users input hv he]
    · left
      push_neg at he
      obtain ⟨u, hu, heq⟩ := he
      rw [createUser_conflict users input hv ⟨u, hu, heq⟩]
  · left
    rw [createUser_invalid users input (by simpa using hv)]

/-- Behaviour of `getUserById` when no record carries the id: `NOT_FOUND`. -/
theorem getUserById_notFound (users : List User) (id : String)
    (hlen : 1 ≤ id.length) (h : ∀ u ∈ users, u.id ≠ id) :
    getUserById users id = .error .NOT_FOUND := by
  have hfind : users.find? (fun u => u.id == id) = none := by
    rw [List.find?_eq_none]
    intro u hu
    simpa using h u hu
  rw [getUserById, if_neg (by omega), hfind]

/-- Behaviour of `deleteUser` when no record carries the id: `NOT_FOUND`,
store untouched. -/
theorem deleteUser_notFound (users : List User) (id : String)
    (hlen : 1 ≤ id.length) (h : ∀ u ∈ users, u.id ≠ id) :
    deleteUser users id = (.error .NOT_FOUND, users) := by
  have hfind : users.find? (fun u => u.id == id) = none := by
    rw [List.find?_eq_none]
    intro u hu
    simpa using h u hu
  rw [deleteUser, if_neg (by omega), hfind]

/-- On a store split around the first record carrying the id, `find?` by id
returns exactly that record. -/
theorem find?_id_first (pre : List User) (u : User) (post : List User)
    (id : String) (hpre : ∀ v ∈ pre, v.id ≠ id) (hu : u.id = id) :
    (pre ++ u :: post).find? (fun v => v.id == id) = some u := by
  induction pre with
  | nil => exact List.find?_cons_of_pos _ (by simp [hu])
  | cons a pre ih =>
    have ha : ¬((fun v : User => v.id == id) a = true) := by
      simpa using hpre a (by simp)
    rw [List.cons_append,
      List.find?_cons_of_neg (p := fun v : User => v.id == id) (a := a) _ ha]
    exact ih fun v hv => hpre v (by simp [hv])

/-- On a store split around the first record carrying the id, `eraseP` by id
removes exactly that record and keeps everything else in order. -/
theorem eraseP_id_first (pre : List User) (u : User) (post : List User)
    (id : String) (hpre : ∀ v ∈ pre, v.id ≠ id) (hu : u.id = id) :
    (pre ++ u :: post).eraseP (fun v => v.id == id) = pre ++ post := by
  induction pre with
  | nil => simpa using List.eraseP_cons_of_pos (by simp [hu])
  | cons a pre ih =>
    have ha : ¬((fun v : User => v.id == id) a = true) := by
      simpa using hpre a (by simp)
    rw [List.cons_append,
      List.eraseP_cons_of_neg (p := fun v : User => v.id == id) (a := a) ha,
      List.cons_append]
    rw [ih fun v hv => hpre v (by simp [hv])]

/-- Behaviour of `getUserById` at the first record carrying the id. -/
theorem getUserById_first (pre : List User) (u : User) (post : List User)
    (id : String) (hlen : 1 ≤ id.length)
    (hpre : ∀ v ∈ pre, v.id ≠ id) (hu : u.id = id) :
    getUserById (pre ++ u :: post) id = .ok u := by
  rw [getUserById, if_neg (by omega), find?_id_first pre u post id hpre hu]

/-- Behaviour of `deleteUser` at the first record carrying the id. -/
theorem deleteUser_first (pre : List User) (u : User) (post : List User)
    (id : String) (hlen : 1 ≤ id.length)
    (hpre : ∀ v ∈ pre, v.id ≠ id) (hu : u.id = id) :
    deleteUser (pre ++ u :: post) id = (.ok u, pre ++ post) := by
  rw [deleteUser, if_neg (by omega), find?_id_first pre u post id hpre hu,
    eraseP_id_first pre u post id hpre hu]

/-- The store left by `deleteUser` is a sublist of the old store. -/
theorem deleteUser_store_sublist (users : List User) (input : String) :
    (deleteUser users input).2.Sublist users := by
  rw [deleteUser]
  split
  · exact List.Sublist.refl users
  · split
    · exact List.Sublist.refl users
    · exact List.eraseP_sublist users

/-- When exactly one element satisfies `p`, no element of `eraseP p`
still satisfies it. -/
theorem eraseP_count_one {α : Type} (p : α → Bool) (l : List α)
    (h : l.countP p = 1) : ∀ a ∈ l.eraseP p, ¬p a = true := by
  induction l with
  | nil => simp
  | cons a l ih =>
    by_cases ha : p a = true
    · rw [List.eraseP_cons_of_pos ha]
      rw [List.countP_cons_of_pos p l ha] at h
      exact fun b hb => List.countP_eq_zero.mp (by omega) b hb
    · rw [List.eraseP_cons_of_neg ha]
      rw [List.countP_cons_of_neg p l ha] at h
      intro b hb
      rcases List.mem_cons.mp hb with hb | hb
      · exact hb ▸ ha
      · exact ih h b hb

/-- Every id in a reachable store is a non-empty string (the seed ids and
every `String(users.length + 1)` are non-empty). -/
theorem reachable_id_len {s : List User} (h : Reachable s) :
    ∀ u ∈ s, 1 ≤ u.id.length := by
  induction h with
  | seed => decide
  | create s input _ ih =>
    intro u hu
    rcases createUser_store_cases s input with hc | hc
    · exact ih u (hc ▸ hu)
    · rw [hc] at hu
      rcases List.mem_append.mp hu with h1 | h1
      · exact ih u h1
      · simp at h1
        subst h1
        exact toString_len _
  | delete s input _ ih =>
    intro u hu
    exact ih u ((deleteUser_store_sublist s input).subset hu)

/-- Every reachable store has pairwise distinct emails: the seed does, the
conflict check guards `createUser`, and `deleteUser` only removes. -/
theorem reachable_emails_pairwise {s : List User} (h : Reachable s) :
    s.Pairwise (fun a b => a.email ≠ b.email) := by
  induction h with
  | seed => decide
  | create s input _ ih =>
    by_cases hv : createUserInputOk input = true
    · by_cases he : ∀ u ∈ s, u.email ≠ input.email
      · rw [createUser_ok s input hv he]
        rw [List.pairwise_append]
        refine ⟨ih, List.pairwise_singleton _ _, ?_⟩
        intro a ha b hb
        simp at hb
        subst hb
        exact he a ha
      · push_neg at he
        obtain ⟨u, hu, heq⟩ := he
        rw [createUser_conflict s input hv ⟨u, hu, heq⟩]
        exact ih
    · rw [createUser_invalid s input (by simpa using hv)]
      exact ih
  | delete s input _ ih =>
    exact List.Pairwise.sublist (deleteUser_store_sublist s input) ih

example : emailValid "alice@example.com" = true := by decide
example : emailValid "dana@x.com" = true := by decide
example : emailValid "not-an-email" = false := by decide
example : emailValid "a@b" = false := by decide
example : (createUser seedUsers { name := "Dana", email := "dana@x.com" }).1 =
    .ok { id := "4", name := "Dana", email := "dana@x.com" } := by decide
example : deleteUser seedUsers "2" =
    (.ok { id := "2", name := "Bob", email := "bob@example.com" },
     [{ id := "1", name := "Alice", email := "alice@example.com" },
      { id := "3", name := "Charlie", email := "charlie@example.com" }]) := by decide

/-!  Claim theorems. -/

/-- C1 counterexample: from the reachable store [Bob, Charlie] (the seed
with id "1" deleted), the valid input {Dana, dana@x.com} with unused email
is assigned id String(2 + 1) = "3", which is Charlie's id and hence WAS the
id of a record previously in the store; getUserById "3" on the resulting
store returns Charlie's record, not a record with the input's fields. -/
theorem claim_C1_counterexample :
    (let s1 := (deleteUser seedUsers "1").2;
     Reachable s1 ∧
     createUserInputOk { name := "Dana", email := "dana@x.com" } = true ∧
     (∀ u ∈ s1, u.email ≠ "dana@x.com") ∧
     (createUser s1 { name := "Dana", email := "dana@x.com" }).1 =
       .ok { id := "3", name := "Dana", email := "dana@x.com" } ∧
     (∃ u ∈ s1, u.id = "3") ∧
     getUserById (createUser s1 { name := "Dana", email := "dana@x.com" }).2 "3" =
       .ok { id := "3", name := "Charlie", email := "charlie@example.com" }) :=
  ⟨Reachable.delete _ _ Reachable.seed, by decide, by decide, by decide,
   by decide, by decide⟩

/-- C1 (amended): for every store and every valid input with unused email,
createUser succeeds and returns a record carrying the input's name and
email (and id String(users.length + 1)); when additionally that assigned id
is not the id of any record previously in the store, a subsequent
getUserById with the returned id returns exactly the new record. -/
theorem claim_C1 (users : List User) (input : CreateInput)
    (hv : createUserInputOk input = true)
    (he : ∀ u ∈ users, u.email ≠ input.email)
    (hid : ∀ u ∈ users, u.id ≠ toString (users.length + 1)) :
    ∃ newUser : User,
      (createUser users input).1 = .ok newUser ∧
      newUser.name = input.name ∧ newUser.email = input.email ∧
      (∀ u ∈ users, u.id ≠ newUser.id) ∧
      getUserById (createUser users input).2 newUser.id = .ok newUser := by
  refine ⟨{ id := toString (users.length + 1), name := input.name,
            email := input.email }, ?_, rfl, rfl, hid, ?_⟩
  · rw [createUser_ok users input hv he]
  · rw [createUser_ok users input hv he]
    have h := getUserById_first users
      { id := toString (users.length + 1), name := input.name,
        email := input.email } [] (toString (users.length + 1))
      (toString_len _) hid rfl
    simpa using h

/-- Witness for C1 at the seed store and the input {Dana, dana@x.com}. -/
theorem claim_C1_witness :
    ∃ newUser : User,
      (createUser seedUsers { name := "Dana", email := "dana@x.com" }).1 =
        .ok newUser ∧
      newUser.name = "Dana" ∧ newUser.email = "dana@x.com" ∧
      (∀ u ∈ seedUsers, u.id ≠ newUser.id) ∧
      getUserById (createUser seedUsers
        { name := "Dana", email := "dana@x.com" }).2 newUser.id = .ok newUser :=
  claim_C1 seedUsers { name := "Dana", email := "dana@x.com" }
    (by decide) (by decide) (by decide)

/-- C2 counterexample: an input whose email is already in the seed store but
whose name has length 1 fails validation first: the call returns
BAD_REQUEST (ValidationFailed), not CONFLICT. -/
theorem claim_C2_counterexample :
    (∃ u ∈ seedUsers, u.email = "alice@example.com") ∧
    createUser seedUsers { name := "A", email := "alice@example.com" } =
      (.error .BAD_REQUEST, seedUsers) ∧
    (.error .BAD_REQUEST : Except ErrCode User) ≠ .error .CONFLICT := by
  decide

/-- C2 (amended): for every store and every input that passes the input
schema and whose email equals the email of some record in the store,
createUser fails with CONFLICT and the store after the call is identical to
the store before it. -/
theorem claim_C2 (users : List User) (input : CreateInput)
    (hv : createUserInputOk input = true)
    (he : ∃ u ∈ users, u.email = input.email) :
    createUser users input = (.error .CONFLICT, users) :=
  createUser_conflict users input hv he

/-- Witness for C2 at the seed store, reusing Alice's email. -/
theorem claim_C2_witness :
    createUser seedUsers { name := "Alicia", email := "alice@example.com" } =
      (.error .CONFLICT, seedUsers) :=
  claim_C2 seedUsers { name := "Alicia", email := "alice@example.com" }
    (by decide)
    ⟨{ id := "1", name := "Alice", email := "alice@example.com" }, by decide, rfl⟩

/-- C3: every createUser input with name shorter than 2 characters or with a
malformed email fails with ValidationFailed (BAD_REQUEST) and the store is
returned unchanged: validation runs before the handler touches the store. -/
theorem claim_C3 (users : List User) (input : CreateInput)
    (h : input.name.length < 2 ∨ emailValid input.email = false) :
    createUser users input = (.error .BAD_REQUEST, users) := by
  apply createUser_invalid
  rcases h with h | h
  · have hd : decide (2 ≤ input.name.length) = false := by
      simp
      omega
    simp [createUserInputOk, hd]
  · simp [createUserInputOk, h]

/-- Witness for C3 at the seed store with a one-character name. -/
theorem claim_C3_witness :
    createUser seedUsers { name := "A", email := "a@b.cd" } =
      (.error .BAD_REQUEST, seedUsers) :=
  claim_C3 seedUsers { name := "A", email := "a@b.cd" } (Or.inl (by decide))

/-- C4 counterexample: the claim's example sequence (delete id "3" from the
three-record seed, then create) does NOT make the new id collide: the new
id "3" is not the id of any record present in the store at creation time,
and the resulting store has pairwise distinct ids. -/
theorem claim_C4_counterexample :
    (let s1 := (deleteUser seedUsers "3").2;
     (createUser s1 { name := "Dana", email := "dana@x.com" }).1 =
       .ok { id := "3", name := "Dana", email := "dana@x.com" } ∧
     (∀ u ∈ s1, u.id ≠ "3") ∧
     List.Pairwise (fun a b : User => a.id ≠ b.id)
       (createUser s1 { name := "Dana", email := "dana@x.com" }).2) := by
  decide

/-- C4 (amended): createUser assigns the new id as the decimal string of
(store length + 1), so uniqueness is only best-effort: for the sequence
that deletes id "2" from the seed and then creates, the newly assigned id
"3" equals the id of a record already present in the store. -/
theorem claim_C4 (users : List User) (input : CreateInput)
    (hv : createUserInputOk input = true)
    (he : ∀ u ∈ users, u.email ≠ input.email) :
    (createUser users input).1 =
      .ok { id := toString (users.length + 1), name := input.name,
            email := input.email } ∧
    (let s1 := (deleteUser seedUsers "2").2;
     (createUser s1 { name := "Dana", email := "dana@x.com" }).1 =
       .ok { id := "3", name := "Dana", email := "dana@x.com" } ∧
     ∃ u ∈ s1, u.id = "3") := by
  refine ⟨?_, by decide, by decide⟩
  rw [createUser_ok users input hv he]

/-- Witness for C4 at the seed store and the input {Dana, dana@x.com}. -/
theorem claim_C4_witness :
    (createUser seedUsers { name := "Dana", email := "dana@x.com" }).1 =
      .ok { id := toString (seedUsers.length + 1), name := "Dana",
            email := "dana@x.com" } ∧
    (let s1 := (deleteUser seedUsers "2").2;
     (createUser s1 { name := "Dana", email := "dana@x.com" }).1 =
       .ok { id := "3", name := "Dana", email := "dana@x.com" } ∧
     ∃ u ∈ s1, u.id = "3") :=
  claim_C4 seedUsers { name := "Dana", email := "dana@x.com" }
    (by decide) (by decide)

/-- C5 counterexample: the empty string is not the id of any seed record,
yet getUserById "" and deleteUser "" fail with BAD_REQUEST
(ValidationFailed, from the z.string().min(1) input schema), not with
NOT_FOUND. -/
theorem claim_C5_counterexample :
    (∀ u ∈ seedUsers, u.id ≠ "") ∧
    getUserById seedUsers "" = .error .BAD_REQUEST ∧
    deleteUser seedUsers "" = (.error .BAD_REQUEST, seedUsers) := by
  decide

/-- C5 (amended): for every store and every NON-EMPTY id string not carried
by any record, getUserById fails with NOT_FOUND and deleteUser fails with
NOT_FOUND leaving the store unchanged. -/
theorem claim_C5 (users : List User) (id : String)
    (hlen : 1 ≤ id.length) (h : ∀ u ∈ users, u.id ≠ id) :
    getUserById users id = .error .NOT_FOUND ∧
    deleteUser users id = (.error .NOT_FOUND, users) :=
  ⟨getUserById_notFound users id hlen h, deleteUser_notFound users id hlen h⟩

/-- Witness for C5 at the seed store with the absent id "9". -/
theorem claim_C5_witness :
    getUserById seedUsers "9" = .error .NOT_FOUND ∧
    deleteUser seedUsers "9" = (.error .NOT_FOUND, seedUsers) :=
  claim_C5 seedUsers "9" (by decide) (by decide)

/-- C6 counterexample: after deleteUser "2" and createUser {Dana, dana@x.com}
from the seed, the reachable store holds two records with id "3" (Charlie's
and Dana's).  deleteUser "3" then succeeds and shrinks the store by exactly
one, but the subsequent getUserById "3" returns Dana's record instead of
failing with NOT_FOUND. -/
theorem claim_C6_counterexample :
    (let s2 := (createUser (deleteUser seedUsers "2").2
        { name := "Dana", email := "dana@x.com" }).2;
     Reachable s2 ∧ (∃ u ∈ s2, u.id = "3") ∧
     (deleteUser s2 "3").1 =
       .ok { id := "3", name := "Charlie", email := "charlie@example.com" } ∧
     (deleteUser s2 "3").2.length + 1 = s2.length ∧
     getUserById (deleteUser s2 "3").2 "3" =
       .ok { id := "3", name := "Dana", email := "dana@x.com" } ∧
     getUserById (deleteUser s2 "3").2 "3" ≠ .error ErrCode.NOT_FOUND) :=
  ⟨Reachable.create _ _ (Reachable.delete _ _ Reachable.seed),
   by decide, by decide, by decide, by decide, by decide⟩

/-- C6 (amended): in every reachable store, deleting an id carried by
EXACTLY ONE record succeeds, leaves the store with exactly one fewer
record, and a subsequent getUserById with that id fails with NOT_FOUND.
(When several records share the id — reachable, see the counterexample —
only the first is removed and the lookup still succeeds.) -/
theorem claim_C6 (users : List User) (id : String)
    (hr : Reachable users)
    (hc : users.countP (fun u => u.id == id) = 1) :
    (∃ d, (deleteUser users id).1 = .ok d) ∧
    (deleteUser users id).2.length + 1 = users.length ∧
    getUserById (deleteUser users id).2 id = .error .NOT_FOUND := by
  obtain ⟨u, hu, hid⟩ := List.countP_pos_iff.mp
    (show 0 < users.countP (fun v => v.id == id) by omega)
  have heq : u.id = id := by simpa using hid
  have hlen : 1 ≤ id.length := heq ▸ reachable_id_len hr u hu
  have hsome : (users.find? (fun v => v.id == id)).isSome :=
    List.find?_isSome.mpr ⟨u, hu, hid⟩
  obtain ⟨d, hd⟩ := Option.isSome_iff_exists.mp hsome
  have hdel : deleteUser users id =
      (.ok d, users.eraseP (fun v => v.id == id)) := by
    rw [deleteUser, if_neg (by omega), hd]
  refine ⟨⟨d, by rw [hdel]⟩, ?_, ?_⟩
  · rw [hdel]
    exact List.length_eraseP_add_one
      (List.mem_of_find?_eq_some (p := fun v : User => v.id == id) hd)
      (List.find?_some (p := fun v : User => v.id == id) hd)
  · rw [hdel]
    apply getUserById_notFound _ _ hlen
    intro v hv
    have := eraseP_count_one _ users hc v hv
    simpa using this

/-- Witness for C6 at the seed store, deleting id "2". -/
theorem claim_C6_witness :
    (∃ d, (deleteUser seedUsers "2").1 = .ok d) ∧
    (deleteUser seedUsers "2").2.length + 1 = seedUsers.length ∧
    getUserById (deleteUser seedUsers "2").2 "2" = .error .NOT_FOUND :=
  claim_C6 seedUsers "2" Reachable.seed (by decide)

/-- C7: every store state reachable from the seed by any sequence of the
four API operations has pairwise distinct emails (the queries do not write
the store; createUser is guarded by the conflict check; deleteUser only
removes records). -/
theorem claim_C7 (users : List User) (h : Reachable users) :
    users.Pairwise (fun a b => a.email ≠ b.email) :=
  reachable_emails_pairwise h

/-- Witness for C7 at the seed store. -/
theorem claim_C7_witness :
    seedUsers.Pairwise (fun a b => a.email ≠ b.email) :=
  claim_C7 seedUsers Reachable.seed

/-- C8: the concrete scenario.  From the seed store, getUsers returns the
three seed records in order; createUser {Dana, dana@x.com} returns
{id:"4", name:"Dana", email:"dana@x.com"}; deleteUser "2" then returns
Bob's record; the final getUsers returns [Alice, Charlie, Dana] in that
order. -/
theorem claim_C8 :
    getUsers seedUsers =
      [{ id := "1", name := "Alice", email := "alice@example.com" },
       { id := "2", name := "Bob", email := "bob@example.com" },
       { id := "3", name := "Charlie", email := "charlie@example.com" }] ∧
    createUser seedUsers { name := "Dana", email := "dana@x.com" } =
      (.ok { id := "4", name := "Dana", email := "dana@x.com" },
       seedUsers ++ [{ id := "4", name := "Dana", email := "dana@x.com" }]) ∧
    (let s1 := (createUser seedUsers
        { name := "Dana", email := "dana@x.com" }).2;
     deleteUser s1 "2" =
       (.ok { id := "2", name := "Bob", email := "bob@example.com" },
        [{ id := "1", name := "Alice", email := "alice@example.com" },
         { id := "3", name := "Charlie", email := "charlie@example.com" },
         { id := "4", name := "Dana", email := "dana@x.com" }]) ∧
     getUsers (deleteUser s1 "2").2 =
       [{ id := "1", name := "Alice", email := "alice@example.com" },
        { id := "3", name := "Charlie", email := "charlie@example.com" },
        { id := "4", name := "Dana", email := "dana@x.com" }]) := by
  decide

/-- C9: the error-code remapping is a pure lookup table sending NOT_FOUND
to RESOURCE_NOT_FOUND, CONFLICT to RESOURCE_CONFLICT and BAD_REQUEST to
INVALID_INPUT, and every code string outside the table's keys to
UNKNOWN_ERROR. -/
theorem claim_C9 (code : String) (h : code ∉ errorCodeMapKeys) :
    mapErrorCode "NOT_FOUND" = "RESOURCE_NOT_FOUND" ∧
    mapErrorCode "CONFLICT" = "RESOURCE_CONFLICT" ∧
    mapErrorCode "BAD_REQUEST" = "INVALID_INPUT" ∧
    mapErrorCode code = "UNKNOWN_ERROR" := by
  refine ⟨by decide, by decide, by decide, ?_⟩
  simp [errorCodeMapKeys] at h
  obtain ⟨h1, h2, h3, h4, h5, h6, h7, h8, h9, h10, h11, h12, h13⟩ := h
  simp [mapErrorCode, h1, h2, h3, h4, h5, h6, h7, h8, h9, h10, h11, h12, h13]

/-- Witness for C9 at the unmapped code string "SOMETHING_ELSE". -/
theorem claim_C9_witness :
    mapErrorCode "NOT_FOUND" = "RESOURCE_NOT_FOUND" ∧
    mapErrorCode "CONFLICT" = "RESOURCE_CONFLICT" ∧
    mapErrorCode "BAD_REQUEST" = "INVALID_INPUT" ∧
    mapErrorCode "SOMETHING_ELSE" = "UNKNOWN_ERROR" :=
  claim_C9 "SOMETHING_ELSE" (by decide)

/-- C10: on a store in which several records share an id (split as
pre ++ u :: post with no carrier of the id in pre, u carrying it and some
further carrier in post), getUserById returns the first carrier u, and
deleteUser removes exactly u, preserving the relative order of all
remaining records.  Such stores are reachable only through createUser, so
the shared id is a non-empty string (see reachable_id_len). -/
theorem claim_C10 (pre : List User) (u : User) (post : List User)
    (id : String) (hlen : 1 ≤ id.length)
    (hpre : ∀ v ∈ pre, v.id ≠ id) (hu : u.id = id)
    (_hdup : ∃ w ∈ post, w.id = id) :
    getUserById (pre ++ u :: post) id = .ok u ∧
    deleteUser (pre ++ u :: post) id = (.ok u, pre ++ post) :=
  ⟨getUserById_first pre u post id hlen hpre hu,
   deleteUser_first pre u post id hlen hpre hu⟩

/-- Witness for C10 at the reachable duplicate store
[Alice, Charlie(id "3"), Dana(id "3")]. -/
theorem claim_C10_witness :
    getUserById
      ([{ id := "1", name := "Alice", email := "alice@example.com" }] ++
        { id := "3", name := "Charlie", email := "charlie@example.com" } ::
        [{ id := "3", name := "Dana", email := "dana@x.com" }]) "3" =
      .ok { id := "3", name := "Charlie", email := "charlie@example.com" } ∧
    deleteUser
      ([{ id := "1", name := "Alice", email := "alice@example.com" }] ++
        { id := "3", name := "Charlie", email := "charlie@example.com" } ::
        [{ id := "3", name := "Dana", email := "dana@x.com" }]) "3" =
      (.ok { id := "3", name := "Charlie", email := "charlie@example.com" },
       [{ id := "1", name := "Alice", email := "alice@example.com" }] ++
       [{ id := "3", name := "Dana", email := "dana@x.com" }]) :=
  claim_C10 [{ id := "1", name := "Alice", email := "alice@example.com" }]
    { id := "3", name := "Charlie", email := "charlie@example.com" }
    [{ id := "3", name := "Dana", email := "dana@x.com" }] "3"
    (by decide) (by decide) rfl
    ⟨{ id := "3", name := "Dana", email := "dana@x.com" }, by decide, rfl⟩
